import Mathlib

/-!
Shallow embedding of the grant-application lifecycle system
(`src/Код/main.py`): the state-pattern lifecycle machine, the
`Application` entity, the application/evaluation/decision services and
the `SystemFacade`, together with theorems settling the spec claims.

Python in-place mutation is modelled by explicit state passing: each
operation returns the updated object(s).  `print` diagnostics are
modelled as returned `Option String` / `String` values.  A Python
`AttributeError` raised by dereferencing `None` is modelled by the
`PyError` error type in an `Except`.
-/

namespace Grant

/-- The six concrete `ApplicationState` subclasses of the state pattern. -/
inductive ApplicationState
  | SubmittedState
  | UnderReviewState
  | EvaluatedState
  | WithdrawnState
  | ApprovedState
  | RejectedState
deriving DecidableEq, Fintype

/-- Python `type(state).__name__`: the class name of a state object. -/
def ApplicationState.name : ApplicationState → String
  | .SubmittedState => "SubmittedState"
  | .UnderReviewState => "UnderReviewState"
  | .EvaluatedState => "EvaluatedState"
  | .WithdrawnState => "WithdrawnState"
  | .ApprovedState => "ApprovedState"
  | .RejectedState => "RejectedState"

/-- The `submit` method of each state class: resulting state plus the
printed diagnostic (`none` models the `pass` bodies of
`ApprovedState`/`RejectedState`). -/
def ApplicationState.submitStep : ApplicationState → ApplicationState × Option String
  | .SubmittedState => (.SubmittedState, some "[SubmittedState] Already submitted")
  | .UnderReviewState => (.UnderReviewState, some "[UnderReviewState] Already submitted")
  | .EvaluatedState => (.EvaluatedState, some "[EvaluatedState] Already submitted")
  | .WithdrawnState => (.WithdrawnState, some "[WithdrawnState] Cannot submit, withdrawn")
  | .ApprovedState => (.ApprovedState, none)
  | .RejectedState => (.RejectedState, none)

/-- The `review` method of each state class. -/
def ApplicationState.reviewStep : ApplicationState → ApplicationState × Option String
  | .SubmittedState => (.UnderReviewState, some "[SubmittedState] Moving to UNDER_REVIEW")
  | .UnderReviewState => (.UnderReviewState, some "[UnderReviewState] Already under review")
  | .EvaluatedState => (.EvaluatedState, some "[EvaluatedState] Already reviewed")
  | .WithdrawnState => (.WithdrawnState, some "[WithdrawnState] Cannot review, withdrawn")
  | .ApprovedState => (.ApprovedState, none)
  | .RejectedState => (.RejectedState, none)

/-- The `evaluate` method of each state class. -/
def ApplicationState.evaluateStep : ApplicationState → ApplicationState × Option String
  | .SubmittedState => (.SubmittedState, some "[SubmittedState] Cannot evaluate, not under review")
  | .UnderReviewState => (.EvaluatedState, some "[UnderReviewState] Evaluating application")
  | .EvaluatedState => (.EvaluatedState, some "[EvaluatedState] Already evaluated")
  | .WithdrawnState => (.WithdrawnState, some "[WithdrawnState] Cannot evaluate, withdrawn")
  | .ApprovedState => (.ApprovedState, none)
  | .RejectedState => (.RejectedState, none)

/-- The `withdraw` method of each state class. -/
def ApplicationState.withdrawStep : ApplicationState → ApplicationState × Option String
  | .SubmittedState => (.WithdrawnState, some "[SubmittedState] Withdrawing application")
  | .UnderReviewState => (.WithdrawnState, some "[UnderReviewState] Withdrawing application")
  | .EvaluatedState => (.EvaluatedState, some "[EvaluatedState] Cannot withdraw, already evaluated")
  | .WithdrawnState => (.WithdrawnState, some "[WithdrawnState] Already withdrawn")
  | .ApprovedState => (.ApprovedState, none)
  | .RejectedState => (.RejectedState, none)

/-- The `decide` method of each state class; only `EvaluatedState`
inspects the decision string (`"APPROVED"` versus anything else). -/
def ApplicationState.decideStep : ApplicationState → String → ApplicationState × Option String
  | .SubmittedState, _ => (.SubmittedState, some "[SubmittedState] Cannot decide, not evaluated")
  | .UnderReviewState, _ => (.UnderReviewState, some "[UnderReviewState] Cannot decide, not evaluated")
  | .EvaluatedState, d =>
      (if d = "APPROVED" then .ApprovedState else .RejectedState,
       some ("[EvaluatedState] Decision applied: " ++ d))
  | .WithdrawnState, _ => (.WithdrawnState, some "[WithdrawnState] Cannot decide, withdrawn")
  | .ApprovedState, _ => (.ApprovedState, none)
  | .RejectedState, _ => (.RejectedState, none)

/-- The `Application` entity: id, content fields, owner and current
lifecycle state. -/
structure Application where
  application_id : Nat
  title : String
  description : String
  applicant_id : Nat
  state : ApplicationState
deriving DecidableEq

/-- `Application.__init__`: a fresh application starts in
`SubmittedState`. -/
def Application.init (application_id : Nat) (title description : String)
    (applicant_id : Nat) : Application :=
  { application_id, title, description, applicant_id, state := .SubmittedState }

/-- `Application.get_state`: returns `type(self.state).__name__`. -/
def Application.get_state (app : Application) : String :=
  app.state.name

/-- `Application.submit`: delegates to the current state's `submit`,
which may replace the state via `set_state`. -/
def Application.submit (app : Application) : Application × Option String :=
  let r := app.state.submitStep
  ({ app with state := r.1 }, r.2)

/-- `Application.start_review`: delegates to the current state's `review`. -/
def Application.start_review (app : Application) : Application × Option String :=
  let r := app.state.reviewStep
  ({ app with state := r.1 }, r.2)

/-- `Application.evaluate`: delegates to the current state's `evaluate`. -/
def Application.evaluate (app : Application) : Application × Option String :=
  let r := app.state.evaluateStep
  ({ app with state := r.1 }, r.2)

/-- `Application.withdraw`: delegates to the current state's `withdraw`. -/
def Application.withdraw (app : Application) : Application × Option String :=
  let r := app.state.withdrawStep
  ({ app with state := r.1 }, r.2)

/-- `Application.make_decision`: delegates to the current state's `decide`. -/
def Application.make_decision (app : Application) (decision : String) :
    Application × Option String :=
  let r := app.state.decideStep decision
  ({ app with state := r.1 }, r.2)

/-- The five lifecycle operations of the state interface; `decide`
carries its decision-string argument. -/
inductive Op
  | submit
  | review
  | evaluate
  | withdraw
  | decide (decision : String)
deriving DecidableEq

/-- Dispatch one lifecycle operation on an application. -/
def Application.applyOp (app : Application) : Op → Application × Option String
  | .submit => app.submit
  | .review => app.start_review
  | .evaluate => app.evaluate
  | .withdraw => app.withdraw
  | .decide d => app.make_decision d

/-- Run a sequence of lifecycle operations, keeping only the entity
(the diagnostics go to stdout in the source). -/
def Application.applyOps (app : Application) : List Op → Application
  | [] => app
  | o :: rest => ((app.applyOp o).1).applyOps rest

/-- One lifecycle operation at the state level (the state component of
the corresponding state-class method). -/
def stepOp (s : ApplicationState) : Op → ApplicationState
  | .submit => s.submitStep.1
  | .review => s.reviewStep.1
  | .evaluate => s.evaluateStep.1
  | .withdraw => s.withdrawStep.1
  | .decide d => (s.decideStep d).1

/-- A sequence of lifecycle operations at the state level. -/
def stepOps (s : ApplicationState) : List Op → ApplicationState
  | [] => s
  | o :: rest => stepOps (stepOp s o) rest

/-- Which (state, operation) pairs are marked as transitions in the
lifecycle table of spec §4.1: `Submitted --review--> UnderReview`,
`Submitted --withdraw--> Withdrawn`, `UnderReview --evaluate--> Evaluated`,
`UnderReview --withdraw--> Withdrawn`, `Evaluated --decide--> Approved/Rejected`. -/
def isTransition : ApplicationState → Op → Bool
  | .SubmittedState, .review => true
  | .SubmittedState, .withdraw => true
  | .UnderReviewState, .evaluate => true
  | .UnderReviewState, .withdraw => true
  | .EvaluatedState, .decide _ => true
  | _, _ => false

/-- Forward reachability order of the transition graph
`Submitted → UnderReview → Evaluated → {Approved | Rejected}`,
`Submitted | UnderReview → Withdrawn`: `stateLe s t` holds when `t`
lies forward of (or equals) `s`. -/
def stateLe : ApplicationState → ApplicationState → Bool
  | .SubmittedState, _ => true
  | .UnderReviewState, .SubmittedState => false
  | .UnderReviewState, _ => true
  | .EvaluatedState, .EvaluatedState => true
  | .EvaluatedState, .ApprovedState => true
  | .EvaluatedState, .RejectedState => true
  | .EvaluatedState, _ => false
  | .WithdrawnState, .WithdrawnState => true
  | .WithdrawnState, _ => false
  | .ApprovedState, .ApprovedState => true
  | .ApprovedState, _ => false
  | .RejectedState, .RejectedState => true
  | .RejectedState, _ => false

/-- A Python `AttributeError` raised by dereferencing `None` (the
facade passes `applications.get(id)`, possibly `None`, straight into
the services, which access attributes on it). -/
inductive PyError
  | attributeErrorNone
deriving DecidableEq

/-- `ApplicationService`: the registry dictionary (id-keyed, insertion
order) and the monotonic id counter. -/
structure ApplicationService where
  applications : List (Nat × Application)
  next_id : Nat
deriving DecidableEq

/-- `ApplicationService.__init__`: empty registry, counter at 1. -/
def ApplicationService.init : ApplicationService :=
  { applications := [], next_id := 1 }

/-- `ApplicationService.create_application`: allocates the next id,
constructs the application in `SubmittedState`, stores and returns it. -/
def ApplicationService.create_application (svc : ApplicationService)
    (title description : String) (applicant_id : Nat) :
    ApplicationService × Application :=
  let app_id := svc.next_id
  let app := Application.init app_id title description applicant_id
  ({ applications := svc.applications ++ [(app_id, app)], next_id := svc.next_id + 1 }, app)

/-- `ApplicationService.get_applications_by_applicant`: dict values in
insertion order, filtered by owner. -/
def ApplicationService.get_applications_by_applicant (svc : ApplicationService)
    (applicant_id : Nat) : List Application :=
  (svc.applications.map Prod.snd).filter (fun app => app.applicant_id = applicant_id)

/-- `self.applications.get(application_id)` on the registry dictionary. -/
def ApplicationService.getApp (svc : ApplicationService) (application_id : Nat) :
    Option Application :=
  svc.applications.lookup application_id

/-- Write-back of an in-place mutation: in Python the dictionary entry
and the local variable alias the same `Application` object, so a
mutation through the alias is a pointwise update of the stored entry. -/
def ApplicationService.storeApp (svc : ApplicationService) (application_id : Nat)
    (app : Application) : ApplicationService :=
  { svc with
    applications := svc.applications.map
      (fun p => if p.1 = application_id then (p.1, app) else p) }

/-- The `Evaluation` record. -/
structure Evaluation where
  evaluation_id : Nat
  application_id : Nat
  expert_id : Nat
  score : Int
  comments : String
deriving DecidableEq

/-- `Evaluation.is_valid` (defined in the source, never called on the
save path): score within [0, 100] and non-empty comments. -/
def Evaluation.is_valid (e : Evaluation) : Bool :=
  0 ≤ e.score && e.score ≤ 100 && !(e.comments = "")

/-- `EvaluationService`: the evaluation store and its id counter. -/
structure EvaluationService where
  evaluations : List (Nat × Evaluation)
  next_id : Nat
deriving DecidableEq

/-- `EvaluationService.__init__`. -/
def EvaluationService.init : EvaluationService :=
  { evaluations := [], next_id := 1 }

/-- `EvaluationService.save_evaluation`.  The argument may be `None`
(the facade passes `applications.get(id)`); accessing
`application.state` on `None` raises an `AttributeError` before any
mutation.  Otherwise: if the application is not `UnderReviewState`,
return `None` with no side effect; else allocate an id, store the
record, fire `application.evaluate()` and return the record.  The
result pairs the updated service with updated application and returned
record. -/
def EvaluationService.save_evaluation (svc : EvaluationService)
    (application : Option Application) (expert_id : Nat) (score : Int)
    (comments : String) :
    EvaluationService × Except PyError (Application × Option Evaluation) :=
  match application with
  | none => (svc, .error .attributeErrorNone)
  | some app =>
    if app.state.name ≠ "UnderReviewState" then
      (svc, .ok (app, none))
    else
      let eval_id := svc.next_id
      let evaluation : Evaluation :=
        { evaluation_id := eval_id, application_id := app.application_id,
          expert_id, score, comments }
      ({ evaluations := svc.evaluations ++ [(eval_id, evaluation)],
         next_id := svc.next_id + 1 },
       .ok ((app.evaluate).1, some evaluation))

/-- The `Decision` record. -/
structure Decision where
  decision_id : Nat
  application_id : Nat
  fund_holder_id : Nat
  status : String
  notes : String
deriving DecidableEq

/-- `Decision.approve` (unused by the save path). -/
def Decision.approve (d : Decision) : Decision :=
  { d with status := "APPROVED" }

/-- `Decision.reject` (unused by the save path). -/
def Decision.reject (d : Decision) : Decision :=
  { d with status := "REJECTED" }

/-- `DecisionService`: the decision store and its id counter. -/
structure DecisionService where
  decisions : List (Nat × Decision)
  next_id : Nat
deriving DecidableEq

/-- `DecisionService.__init__`. -/
def DecisionService.init : DecisionService :=
  { decisions := [], next_id := 1 }

/-- `DecisionService.assign_experts`: prints only; no lifecycle effect.
Accessing `application.application_id` on `None` raises. -/
def DecisionService.assign_experts (application : Option Application)
    (expert_ids : List Nat) : Except PyError String :=
  match application with
  | none => .error .attributeErrorNone
  | some app =>
      .ok ("[DecisionService] Assigned experts " ++ toString expert_ids
        ++ " to application " ++ toString app.application_id)

/-- `DecisionService.save_decision`.  The id counter is incremented
first; then `application.application_id` is read (raising on `None`,
with the incremented counter already written back); the `Decision`
record stores the `status` string verbatim; the application's
`make_decision` is called with `"APPROVED"` exactly when `status` is
the literal `"APPROVED"` and with `"REJECTED"` otherwise; finally the
record is stored. -/
def DecisionService.save_decision (svc : DecisionService)
    (application : Option Application) (fund_holder_id : Nat)
    (status notes : String) :
    DecisionService × Except PyError Application :=
  let decision_id := svc.next_id
  let svc1 : DecisionService := { svc with next_id := svc.next_id + 1 }
  match application with
  | none => (svc1, .error .attributeErrorNone)
  | some app =>
    let decision : Decision :=
      { decision_id, application_id := app.application_id, fund_holder_id,
        status, notes }
    let app' := if status = "APPROVED" then (app.make_decision "APPROVED").1
                else (app.make_decision "REJECTED").1
    ({ svc1 with decisions := svc1.decisions ++ [(decision_id, decision)] },
     .ok app')

/-- `SystemFacade`: composes the three services. -/
structure SystemFacade where
  application_service : ApplicationService
  evaluation_service : EvaluationService
  decision_service : DecisionService
deriving DecidableEq

/-- `SystemFacade.__init__`. -/
def SystemFacade.init : SystemFacade :=
  { application_service := .init, evaluation_service := .init,
    decision_service := .init }

/-- `SystemFacade.submit_application`: create the application, call its
(no-op) `submit`, return it. -/
def SystemFacade.submit_application (f : SystemFacade) (applicant_id : Nat)
    (title description : String) : SystemFacade × Application × Option String :=
  let r := f.application_service.create_application title description applicant_id
  let s := r.2.submit
  ({ f with application_service := r.1.storeApp r.2.application_id s.1 }, s.1, s.2)

/-- `SystemFacade.view_status`: one status line per owned application. -/
def SystemFacade.view_status (f : SystemFacade) (applicant_id : Nat) : List String :=
  (f.application_service.get_applications_by_applicant applicant_id).map
    (fun app => "[Status] Application " ++ toString app.application_id ++ ": "
      ++ app.get_state)

/-- `SystemFacade.withdraw_application`: withdraw only when the
application exists and its owner matches the requesting applicant;
otherwise print the not-found / access-denied diagnostic and change
nothing. -/
def SystemFacade.withdraw_application (f : SystemFacade)
    (applicant_id application_id : Nat) : SystemFacade × Option String :=
  match f.application_service.getApp application_id with
  | some app =>
    if app.applicant_id = applicant_id then
      let r := app.withdraw
      ({ f with application_service :=
          f.application_service.storeApp application_id r.1 }, r.2)
    else
      (f, some "[Facade] Application not found or access denied")
  | none => (f, some "[Facade] Application not found or access denied")

/-- `SystemFacade.evaluate_application`: looks the application up
(possibly `None`) and hands it to `save_evaluation` unchecked. -/
def SystemFacade.evaluate_application (f : SystemFacade)
    (expert_id application_id : Nat) (score : Int) (comments : String) :
    SystemFacade × Except PyError (Option Evaluation) :=
  let appOpt := f.application_service.getApp application_id
  let r := f.evaluation_service.save_evaluation appOpt expert_id score comments
  match r.2 with
  | .error e => ({ f with evaluation_service := r.1 }, .error e)
  | .ok (app', evalOpt) =>
      let f' : SystemFacade :=
        { f with
            evaluation_service := r.1
            application_service := f.application_service.storeApp application_id app' }
      (f', .ok evalOpt)

/-- `SystemFacade.assign_experts`: looks the application up and hands
it to the decision service's announcement. -/
def SystemFacade.assign_experts (f : SystemFacade)
    (fund_holder_id application_id : Nat) (expert_ids : List Nat) :
    Except PyError String :=
  DecisionService.assign_experts (f.application_service.getApp application_id)
    expert_ids

/-- `SystemFacade.make_decision`: looks the application up (possibly
`None`) and hands it to `save_decision` unchecked. -/
def SystemFacade.make_decision (f : SystemFacade)
    (fund_holder_id application_id : Nat) (status notes : String) :
    SystemFacade × Except PyError Unit :=
  let appOpt := f.application_service.getApp application_id
  let r := f.decision_service.save_decision appOpt fund_holder_id status notes
  match r.2 with
  | .error e => ({ f with decision_service := r.1 }, .error e)
  | .ok app' =>
      let f' : SystemFacade :=
        { f with
            decision_service := r.1
            application_service := f.application_service.storeApp application_id app' }
      (f', .ok ())

/-! ## Theorems -/

/-- C1: starting from `SubmittedState`, the sequence `start_review`,
`evaluate`, `make_decision "APPROVED"` ends in `ApprovedState`, and the
same sequence with any other decision string ends in `RejectedState`. -/
theorem review_evaluate_decide_from_submitted (app : Application)
    (h : app.state = .SubmittedState) :
    ((((app.start_review).1.evaluate).1.make_decision "APPROVED").1.state
        = .ApprovedState)
    ∧ ∀ d : String, d ≠ "APPROVED" →
      ((((app.start_review).1.evaluate).1.make_decision d).1.state
        = .RejectedState) := by
  obtain ⟨i, t, dsc, a, s⟩ := app
  simp only at h
  subst h
  refine ⟨rfl, ?_⟩
  intro d hd
  simp [Application.start_review, Application.evaluate, Application.make_decision,
    ApplicationState.reviewStep, ApplicationState.evaluateStep,
    ApplicationState.decideStep, hd]

/-- Witness for C1 at a concrete application and the decision string
`"DENIED"`. -/
theorem review_evaluate_decide_from_submitted_witness :
    ((((Application.init 1 "Project X" "Description X" 1).start_review).1.evaluate).1.make_decision
        "APPROVED").1.state = .ApprovedState
    ∧ ((((Application.init 1 "Project X" "Description X" 1).start_review).1.evaluate).1.make_decision
        "DENIED").1.state = .RejectedState :=
  ⟨(review_evaluate_decide_from_submitted (Application.init 1 "Project X" "Description X" 1) rfl).1,
   (review_evaluate_decide_from_submitted (Application.init 1 "Project X" "Description X" 1) rfl).2
     "DENIED" (by decide)⟩

/-- C2: any of the five lifecycle operations that is not marked as a
transition for the current state in the §4.1 table leaves the
application's reported state name unchanged (every state method is
total: a no-op or a printed rejection, never an exception). -/
theorem non_transition_preserves_state_name (app : Application) (o : Op)
    (h : isTransition app.state o = false) :
    ((app.applyOp o).1).get_state = app.get_state := by
  obtain ⟨i, t, dsc, a, s⟩ := app
  cases o <;> cases s <;>
    simp_all [Application.applyOp, Application.submit, Application.start_review,
      Application.evaluate, Application.withdraw, Application.make_decision,
      ApplicationState.submitStep, ApplicationState.reviewStep,
      ApplicationState.evaluateStep, ApplicationState.withdrawStep,
      ApplicationState.decideStep, isTransition, Application.get_state,
      ApplicationState.name]

/-- Witness for C2: `submit` on a `SubmittedState` application. -/
theorem non_transition_preserves_state_name_witness :
    (((Application.init 1 "t" "d" 1).applyOp .submit).1).get_state
      = (Application.init 1 "t" "d" 1).get_state :=
  non_transition_preserves_state_name (Application.init 1 "t" "d" 1) .submit
    (by decide)

/-- Any lifecycle operation on a `WithdrawnState` application leaves it
in `WithdrawnState`. -/
theorem applyOp_withdrawn (app : Application) (o : Op)
    (h : app.state = .WithdrawnState) :
    ((app.applyOp o).1).state = .WithdrawnState := by
  obtain ⟨i, t, dsc, a, s⟩ := app
  simp only at h
  subst h
  cases o <;>
    simp [Application.applyOp, Application.submit, Application.start_review,
      Application.evaluate, Application.withdraw, Application.make_decision,
      ApplicationState.submitStep, ApplicationState.reviewStep,
      ApplicationState.evaluateStep, ApplicationState.withdrawStep,
      ApplicationState.decideStep]

/-- Any sequence of lifecycle operations on a `WithdrawnState`
application leaves it in `WithdrawnState`. -/
theorem applyOps_withdrawn (l : List Op) :
    ∀ (app : Application), app.state = .WithdrawnState →
      (app.applyOps l).state = .WithdrawnState := by
  induction l with
  | nil => intro app h; simpa [Application.applyOps] using h
  | cons o rest ih =>
      intro app h
      simpa [Application.applyOps] using ih _ (applyOp_withdrawn app o h)

/-- C3: `withdraw` changes the state exactly when the current state is
`SubmittedState` or `UnderReviewState`, in which case the new state is
`WithdrawnState`; and from `WithdrawnState` no sequence of lifecycle
operations ever changes the state. -/
theorem withdraw_iff_submitted_or_under_review (app : Application) :
    (((app.withdraw).1.state ≠ app.state) ↔
      (app.state = .SubmittedState ∨ app.state = .UnderReviewState))
    ∧ ((app.state = .SubmittedState ∨ app.state = .UnderReviewState) →
        (app.withdraw).1.state = .WithdrawnState)
    ∧ (app.state = .WithdrawnState →
        ∀ l : List Op, (app.applyOps l).state = .WithdrawnState) := by
  refine ⟨?_, ?_, fun h l => applyOps_withdrawn l app h⟩
  · obtain ⟨i, t, dsc, a, s⟩ := app
    cases s <;>
      simp [Application.withdraw, ApplicationState.withdrawStep]
  · obtain ⟨i, t, dsc, a, s⟩ := app
    rintro (h | h) <;> simp only at h <;> subst h <;> rfl

/-- Witness for C3: a `SubmittedState` application withdraws to
`WithdrawnState`, and a `WithdrawnState` application survives a
review/evaluate/decide sequence unchanged. -/
theorem withdraw_iff_submitted_or_under_review_witness :
    ((Application.init 1 "t" "d" 1).withdraw).1.state = .WithdrawnState
    ∧ (({ Application.init 1 "t" "d" 1 with
          state := .WithdrawnState } : Application).applyOps
        [.review, .evaluate, .decide "APPROVED"]).state = .WithdrawnState :=
  ⟨(withdraw_iff_submitted_or_under_review (Application.init 1 "t" "d" 1)).2.1
      (Or.inl rfl),
   (withdraw_iff_submitted_or_under_review
      ({ Application.init 1 "t" "d" 1 with state := .WithdrawnState })).2.2 rfl
      [.review, .evaluate, .decide "APPROVED"]⟩

/-- Each single lifecycle operation moves the state forward (or not at
all) in the reachability order of the transition graph. -/
theorem stateLe_stepOp (s : ApplicationState) (o : Op) :
    stateLe s (stepOp s o) = true := by
  cases o with
  | submit => cases s <;> rfl
  | review => cases s <;> rfl
  | evaluate => cases s <;> rfl
  | withdraw => cases s <;> rfl
  | decide d =>
      cases s <;>
        first
          | rfl
          | (by_cases hd : d = "APPROVED" <;>
              simp [stepOp, ApplicationState.decideStep, stateLe, hd])

/-- The forward reachability order is transitive. -/
theorem stateLe_trans :
    ∀ a b c : ApplicationState,
      stateLe a b = true → stateLe b c = true → stateLe a c = true := by decide

/-- The forward reachability order is antisymmetric, so `stateLe` is a
genuine partial order: moving forward never returns to an earlier state. -/
theorem stateLe_antisymm :
    ∀ a b : ApplicationState, stateLe a b = true → stateLe b a = true → a = b := by
  decide

/-- C6: every sequence of lifecycle operations only moves the state
forward along the transition graph (never backward), and the terminal
states `WithdrawnState`, `ApprovedState`, `RejectedState` are fixed
under every operation. -/
theorem transitions_forward_only (s : ApplicationState) (l : List Op) :
    stateLe s (stepOps s l) = true
    ∧ ∀ o : Op, stepOp .WithdrawnState o = .WithdrawnState
        ∧ stepOp .ApprovedState o = .ApprovedState
        ∧ stepOp .RejectedState o = .RejectedState := by
  constructor
  · induction l generalizing s with
    | nil => cases s <;> rfl
    | cons o rest ih =>
        exact stateLe_trans _ _ _ (stateLe_stepOp s o) (ih (stepOp s o))
  · intro o
    cases o <;> exact ⟨rfl, rfl, rfl⟩

/-- C4: `save_evaluation` on an application that is not under review
returns no record and has no side effect (service store and counter
unchanged, application unchanged); on an under-review application it
stores and returns a record whose application id matches and moves the
application to `EvaluatedState`. -/
theorem save_evaluation_pre_post (svc : EvaluationService) (app : Application)
    (expert_id : Nat) (score : Int) (comments : String) :
    (app.state ≠ .UnderReviewState →
      svc.save_evaluation (some app) expert_id score comments
        = (svc, .ok (app, none)))
    ∧ (app.state = .UnderReviewState →
      svc.save_evaluation (some app) expert_id score comments
        = ({ evaluations := svc.evaluations ++
               [(svc.next_id,
                 { evaluation_id := svc.next_id,
                   application_id := app.application_id,
                   expert_id, score, comments })],
             next_id := svc.next_id + 1 },
           .ok ({ app with state := .EvaluatedState },
             some { evaluation_id := svc.next_id,
                    application_id := app.application_id,
                    expert_id, score, comments }))) := by
  constructor
  · intro h
    obtain ⟨i, t, dsc, a, s⟩ := app
    cases s <;>
      simp_all [EvaluationService.save_evaluation, ApplicationState.name]
  · intro h
    obtain ⟨i, t, dsc, a, s⟩ := app
    simp only at h
    subst h
    simp [EvaluationService.save_evaluation, ApplicationState.name,
      Application.evaluate, ApplicationState.evaluateStep]

/-- Witness for C4: a fresh service with a submitted application
(mismatch branch) and with an under-review application (success branch). -/
theorem save_evaluation_pre_post_witness :
    EvaluationService.init.save_evaluation
        (some (Application.init 1 "t" "d" 1)) 2 85 "Good work"
      = (EvaluationService.init, .ok (Application.init 1 "t" "d" 1, none))
    ∧ EvaluationService.init.save_evaluation
        (some ({ Application.init 1 "t" "d" 1 with
                 state := .UnderReviewState } : Application)) 2 85 "Good work"
      = ({ evaluations :=
             [(1, { evaluation_id := 1, application_id := 1, expert_id := 2,
                    score := 85, comments := "Good work" })],
           next_id := 2 },
         .ok ({ Application.init 1 "t" "d" 1 with state := .EvaluatedState },
           some { evaluation_id := 1, application_id := 1, expert_id := 2,
                  score := 85, comments := "Good work" })) :=
  ⟨(save_evaluation_pre_post EvaluationService.init
      (Application.init 1 "t" "d" 1) 2 85 "Good work").1 (by decide),
   (save_evaluation_pre_post EvaluationService.init
      ({ Application.init 1 "t" "d" 1 with state := .UnderReviewState }) 2 85
      "Good work").2 rfl⟩

/-- C5: `save_decision` always allocates the next decision id and
stores the record with the status string verbatim; it forwards
`"APPROVED"` to `make_decision` exactly when the status is the literal
`"APPROVED"` and `"REJECTED"` otherwise; and on a non-`EvaluatedState`
application the record is still stored while the application comes back
unchanged. -/
theorem save_decision_pre_post (svc : DecisionService) (app : Application)
    (fund_holder_id : Nat) (status notes : String) :
    (svc.save_decision (some app) fund_holder_id status notes).1.next_id
        = svc.next_id + 1
    ∧ (svc.save_decision (some app) fund_holder_id status notes).1.decisions
        = svc.decisions ++
            [(svc.next_id,
              { decision_id := svc.next_id,
                application_id := app.application_id,
                fund_holder_id, status, notes })]
    ∧ (svc.save_decision (some app) fund_holder_id status notes).2
        = .ok (if status = "APPROVED" then (app.make_decision "APPROVED").1
               else (app.make_decision "REJECTED").1)
    ∧ (app.state ≠ .EvaluatedState →
        (svc.save_decision (some app) fund_holder_id status notes).2
          = .ok app) := by
  refine ⟨rfl, rfl, rfl, ?_⟩
  intro h
  obtain ⟨i, t, dsc, a, s⟩ := app
  by_cases hs : status = "APPROVED" <;>
    cases s <;>
      simp_all [DecisionService.save_decision, Application.make_decision,
        ApplicationState.decideStep]

/-- Witness for C5: deciding `"APPROVED"` on a still-submitted
application leaves it unchanged. -/
theorem save_decision_pre_post_witness :
    (DecisionService.init.save_decision
        (some (Application.init 1 "t" "d" 1)) 3 "APPROVED" "n").2
      = .ok (Application.init 1 "t" "d" 1) :=
  (save_decision_pre_post DecisionService.init (Application.init 1 "t" "d" 1)
      3 "APPROVED" "n").2.2.2 (by decide)

/-- C7 (code bug): with no application stored, the facade's
`evaluate_application` and `make_decision` dereference the `None`
lookup result inside the services and raise `AttributeError` instead of
reporting a non-fatal NotFound; `make_decision` even increments the
decision id counter before the raise.  (`withdraw_application`, by
contrast, checks the lookup result.) -/
theorem missing_id_raises_attribute_error :
    (SystemFacade.init.evaluate_application 2 1 85 "Good work").2
        = .error .attributeErrorNone
    ∧ (SystemFacade.init.make_decision 3 1 "APPROVED" "Excellent").2
        = .error .attributeErrorNone
    ∧ (SystemFacade.init.make_decision 3 1 "APPROVED"
        "Excellent").1.decision_service.next_id = 2
    ∧ (SystemFacade.init.evaluate_application 2 1 85 "Good work").1
        = SystemFacade.init :=
  ⟨rfl, rfl, rfl, rfl⟩

/-- C8: when the application exists but is owned by a different
applicant, `withdraw_application` only prints the access-denied
diagnostic and changes nothing; when the owner matches, it invokes the
application's `withdraw`. -/
theorem withdraw_application_access_check (f : SystemFacade)
    (applicant_id application_id : Nat) (app : Application)
    (hfound : f.application_service.getApp application_id = some app) :
    (app.applicant_id ≠ applicant_id →
      f.withdraw_application applicant_id application_id
        = (f, some "[Facade] Application not found or access denied"))
    ∧ (app.applicant_id = applicant_id →
      f.withdraw_application applicant_id application_id
        = ({ f with application_service :=
              f.application_service.storeApp application_id (app.withdraw).1 },
           (app.withdraw).2)) := by
  constructor <;> intro h <;>
    simp [SystemFacade.withdraw_application, hfound, h]

/-- Witness for C8: applicant 2 cannot withdraw applicant 1's freshly
submitted (withdrawable) application; the facade is unchanged. -/
theorem withdraw_application_access_check_witness :
    ((SystemFacade.init.submit_application 1 "Project X"
        "Description X").1.withdraw_application 2 1)
      = ((SystemFacade.init.submit_application 1 "Project X" "Description X").1,
         some "[Facade] Application not found or access denied") :=
  (withdraw_application_access_check
      (SystemFacade.init.submit_application 1 "Project X" "Description X").1 2 1
      (Application.init 1 "Project X" "Description X" 1) (by decide)).1
    (by decide)

/-- Run a list of `create_application` calls against the registry,
collecting the ids of the returned applications in call order. -/
def runCreates (svc : ApplicationService) :
    List (String × String × Nat) → ApplicationService × List Nat
  | [] => (svc, [])
  | (t, d, a) :: rest =>
      let r := svc.create_application t d a
      let rr := runCreates r.1 rest
      (rr.1, r.2.application_id :: rr.2)

/-- Run a list of `save_evaluation` calls, collecting the ids of the
returned evaluation records in call order (calls that return no record
contribute nothing). -/
def runEvalSaves (svc : EvaluationService) :
    List (Application × Nat × Int × String) → EvaluationService × List Nat
  | [] => (svc, [])
  | (app, e, sc, c) :: rest =>
      let r := svc.save_evaluation (some app) e sc c
      let ids0 : List Nat :=
        match r.2 with
        | .ok (_, some ev) => [ev.evaluation_id]
        | _ => []
      let rr := runEvalSaves r.1 rest
      (rr.1, ids0 ++ rr.2)

/-- Run a list of `save_decision` calls, threading the service. -/
def runDecisionSaves (svc : DecisionService) :
    List (Application × Nat × String × String) → DecisionService
  | [] => svc
  | (app, fh, st, nt) :: rest =>
      runDecisionSaves ((svc.save_decision (some app) fh st nt).1) rest

/-- Creations return the ids `next_id, next_id + 1, ...` in order. -/
theorem runCreates_ids (l : List (String × String × Nat)) :
    ∀ svc : ApplicationService,
      (runCreates svc l).2 = List.range' svc.next_id l.length := by
  induction l with
  | nil => intro svc; rfl
  | cons x rest ih =>
      intro svc
      obtain ⟨t, d, a⟩ := x
      simp [runCreates, ApplicationService.create_application, Application.init,
        ih, List.range']

/-- Evaluation saves on under-review applications return records with
ids `next_id, next_id + 1, ...` in order. -/
theorem runEvalSaves_ids (l : List (Application × Nat × Int × String))
    (hall : ∀ x ∈ l, (x.1 : Application).state = .UnderReviewState) :
    ∀ svc : EvaluationService,
      (runEvalSaves svc l).2 = List.range' svc.next_id l.length := by
  induction l with
  | nil => intro svc; rfl
  | cons x rest ih =>
      intro svc
      obtain ⟨app, e, sc, c⟩ := x
      have happ : app.state = .UnderReviewState :=
        hall (app, e, sc, c) (List.mem_cons_self _ _)
      have hrest := fun x hx => hall x (List.mem_cons_of_mem _ hx)
      simp [runEvalSaves, EvaluationService.save_evaluation, happ,
        ApplicationState.name, ih hrest, List.range']

/-- Decision saves append records keyed `next_id, next_id + 1, ...`. -/
theorem runDecisionSaves_ids (l : List (Application × Nat × String × String)) :
    ∀ svc : DecisionService,
      (runDecisionSaves svc l).decisions.map Prod.fst
        = svc.decisions.map Prod.fst ++ List.range' svc.next_id l.length := by
  induction l with
  | nil => intro svc; simp [runDecisionSaves]
  | cons x rest ih =>
      intro svc
      obtain ⟨app, fh, st, nt⟩ := x
      simp [runDecisionSaves, DecisionService.save_decision, ih, List.range']

/-- C9: from a fresh service, N creations (evaluation saves on
under-review applications, decision saves) produce exactly the ids
`[1, 2, ..., N]`, pairwise distinct and strictly increasing, each
service with its own counter. -/
theorem id_monotonic_from_fresh (creates : List (String × String × Nat))
    (evals : List (Application × Nat × Int × String))
    (decs : List (Application × Nat × String × String))
    (h : ∀ x ∈ evals, (x.1 : Application).state = .UnderReviewState) :
    (runCreates ApplicationService.init creates).2
        = List.range' 1 creates.length
    ∧ ((runCreates ApplicationService.init creates).2).Pairwise (· < ·)
    ∧ (runEvalSaves EvaluationService.init evals).2
        = List.range' 1 evals.length
    ∧ ((runEvalSaves EvaluationService.init evals).2).Pairwise (· < ·)
    ∧ (runDecisionSaves DecisionService.init decs).decisions.map Prod.fst
        = List.range' 1 decs.length
    ∧ ((runDecisionSaves DecisionService.init decs).decisions.map
        Prod.fst).Pairwise (· < ·) := by
  have hc : (runCreates ApplicationService.init creates).2
      = List.range' 1 creates.length := runCreates_ids creates _
  have he : (runEvalSaves EvaluationService.init evals).2
      = List.range' 1 evals.length := runEvalSaves_ids evals h _
  have hd : (runDecisionSaves DecisionService.init decs).decisions.map Prod.fst
      = List.range' 1 decs.length := runDecisionSaves_ids decs _
  refine ⟨hc, ?_, he, ?_, hd, ?_⟩
  · rw [hc]; exact List.pairwise_lt_range' 1 creates.length
  · rw [he]; exact List.pairwise_lt_range' 1 evals.length
  · rw [hd]; exact List.pairwise_lt_range' 1 decs.length

/-- Witness for C9: one creation, one evaluation save on an
under-review application, one decision save. -/
theorem id_monotonic_from_fresh_witness :
    (runCreates ApplicationService.init [("Project X", "Description X", 1)]).2
        = [1]
    ∧ (runEvalSaves EvaluationService.init
        [({ Application.init 1 "t" "d" 1 with
            state := .UnderReviewState }, 2, 85, "Good work")]).2 = [1]
    ∧ (runDecisionSaves DecisionService.init
        [({ Application.init 1 "t" "d" 1 with state := .EvaluatedState },
          3, "APPROVED", "n")]).decisions.map Prod.fst = [1] := by
  have := id_monotonic_from_fresh [("Project X", "Description X", 1)]
    [({ Application.init 1 "t" "d" 1 with
        state := .UnderReviewState }, 2, 85, "Good work")]
    [({ Application.init 1 "t" "d" 1 with state := .EvaluatedState },
      3, "APPROVED", "n")]
    (by intro x hx; simp at hx; subst hx; rfl)
  exact ⟨this.1, this.2.2.1, this.2.2.2.2.1⟩

/-- C10 counterexample: a freshly created application reports the state
name `"SubmittedState"` — the Python class name — which differs from
the claimed symbol `"Submitted"` and is none of the six claimed
symbols. -/
theorem get_state_symbol_counterexample :
    (Application.init 1 "Project X" "Description X" 1).get_state
        = "SubmittedState"
    ∧ (Application.init 1 "Project X" "Description X" 1).get_state
        ≠ "Submitted"
    ∧ (Application.init 1 "Project X" "Description X" 1).get_state ∉
        (["Submitted", "UnderReview", "Evaluated", "Withdrawn", "Approved",
          "Rejected"] : List String) := by
  refine ⟨rfl, by decide, by decide⟩

/-- C10 amended: `get_state` always returns one of the six state-class
names `"SubmittedState" ... "RejectedState"`; a just-created-and-
submitted application reports `"SubmittedState"` and, after review,
`"UnderReviewState"`. -/
theorem get_state_class_names (app : Application) :
    app.get_state ∈
      (["SubmittedState", "UnderReviewState", "EvaluatedState",
        "WithdrawnState", "ApprovedState", "RejectedState"] : List String)
    ∧ ((SystemFacade.init.submit_application 1 "Project X"
        "Description X").2.1).get_state = "SubmittedState"
    ∧ (((SystemFacade.init.submit_application 1 "Project X"
        "Description X").2.1).start_review).1.get_state = "UnderReviewState" := by
  refine ⟨?_, rfl, rfl⟩
  obtain ⟨i, t, dsc, a, s⟩ := app
  cases s <;> simp [Application.get_state, ApplicationState.name]

end Grant
